import Mathlib

/-!
Verification development for the run-orchestration core of an assistants-style
chat service.  The embedding follows the TypeScript source:

* the conversational endpoint `POST /api/chat` (session reuse, the bounded
  polling loop with its `requires_action` tool-call detour, timeout
  cancellation, reply extraction with citation stripping, and the cache-control
  policy on every response path);
* the tool dispatcher embedded in that endpoint (the `web_search` handler with
  its argument defaulting, the local error recovery, and the unknown-function
  fallback);
* the search adapter `POST /api/search` (query validation, the outbound
  provider request with its answer-synthesis flag and conditional domain
  allow-list, and the cache policy).

Remote network calls (status fetches, the search provider, JSON decoding of
tool arguments, the assistant-message fetch) are modelled as oracle functions
supplied as parameters; everything the handler itself computes is embedded
directly.  JavaScript truthiness on strings (the empty string is falsy) and on
numbers (zero is falsy) is modelled explicitly where the source relies on it.
-/

/-- JSON values, used for the payloads the handlers build with
`JSON.stringify`.  Objects keep their fields in source order. -/
inductive Json where
  | null : Json
  | bool (b : Bool) : Json
  | num (n : Int) : Json
  | str (s : String) : Json
  | arr (elems : List Json) : Json
  | obj (fields : List (String × Json)) : Json

/-- A pending tool call as delivered in `required_action.submit_tool_outputs.tool_calls`.
The source nests `name` and `arguments` under a `function` field; they are
flattened here. -/
structure ToolCall where
  id : String
  name : String
  arguments : String
deriving DecidableEq, Repr

/-- One entry of the `tool_outputs` array submitted back to the run. -/
structure ToolOutput where
  tool_call_id : String
  output : Json

/-- Decoded `web_search` arguments (`SearchArgs` in the source); `max_results`
and `include_domains` are optional fields of the JSON payload. -/
structure SearchArgs where
  query : String
  max_results : Option Nat
  include_domains : Option (List String)
deriving DecidableEq, Repr

/-- The body the dispatcher sends to the search endpoint after applying the
`args.max_results || 3` and `args.include_domains || ["ey.com"]` defaults. -/
structure SearchRequest where
  query : String
  max_results : Nat
  include_domains : List String
deriving DecidableEq, Repr

/-- The JSON body returned by the search endpoint, before the dispatcher's
defaulting of absent fields (`searchData.results || []`, `searchData.answer || null`). -/
structure SearchReply where
  results : Option (List Json)
  answer : Option String

/-- JavaScript truthiness of an optional string: absent and `""` are falsy.
Used for `if (!OPENAI_API_KEY ...)`, `if (!currentThreadId)`, `if (!query)`. -/
def envTruthy : Option String → Bool
  | none => false
  | some s => !(s == "")

/-- Builds the body of the dispatcher's request to the search endpoint,
matching `max_results: args.max_results || 3` (so an explicit `0` is also
replaced, since `0` is falsy) and
`include_domains: args.include_domains || ["ey.com"]` (an explicit empty
array is truthy and is kept). -/
def buildSearchRequest (args : SearchArgs) : SearchRequest :=
  { query := args.query
    max_results := match args.max_results with
      | some (n + 1) => n + 1
      | _ => 3
    include_domains := args.include_domains.getD ["ey.com"] }

/-- The payload `JSON.stringify({ error: errorMessage, results: [] })` built by
the dispatcher's catch block. -/
def errorResultsJson (msg : String) : Json :=
  .obj [("error", .str msg), ("results", .arr [])]

/-- The payload `JSON.stringify({ error: "Unknown function" })` for a tool name
with no registered handler. -/
def unknownFunctionJson : Json :=
  .obj [("error", .str "Unknown function")]

/-- The `formattedResults` object built from a successful search response:
`{ results: searchData.results || [], answer: searchData.answer || null, query }`
(an empty-string answer is falsy and becomes `null`). -/
def formatResults (args : SearchArgs) (data : SearchReply) : Json :=
  .obj [("results", .arr (data.results.getD [])),
        ("answer", match data.answer with
          | some a => if a == "" then Json.null else Json.str a
          | none => Json.null),
        ("query", .str args.query)]

/-- Oracles for the two external effects inside the dispatcher: `JSON.parse`
of the raw argument string, and the `fetch` of the search endpoint.  An
`Except.error` models a thrown exception (or a non-ok response, which the
source converts to a throw). -/
structure DispatchEnv where
  decodeArgs : String → Except String SearchArgs
  searchFetch : SearchRequest → Except String SearchReply

/-- Services one `ToolCall`, mirroring the closure passed to
`toolCalls.map` in the source: the `web_search` branch with its try/catch,
and the unknown-function fallthrough.  The function is total: every outcome,
including decode and fetch failures, becomes a well-formed `ToolOutput`. -/
def dispatchOne (env : DispatchEnv) (tc : ToolCall) : ToolOutput :=
  if tc.name == "web_search" then
    match env.decodeArgs tc.arguments with
    | .error msg => { tool_call_id := tc.id, output := errorResultsJson msg }
    | .ok args =>
      match env.searchFetch (buildSearchRequest args) with
      | .error msg => { tool_call_id := tc.id, output := errorResultsJson msg }
      | .ok data => { tool_call_id := tc.id, output := formatResults args data }
  else
    { tool_call_id := tc.id, output := unknownFunctionJson }

/-- Services a whole pending tool-call list
(`await Promise.all(toolCalls.map(...))`): one output per call, in order. -/
def dispatchAll (env : DispatchEnv) (tcs : List ToolCall) : List ToolOutput :=
  tcs.map (dispatchOne env)

/-- Maximum number of poll iterations (`const maxRetries = 200`).  The source
comment claims this is 120 seconds at 60 retries, but the configured value is
authoritative: 200 iterations of 2 time-units each. -/
def maxRetries : Nat := 200

/-- Fixed polling sleep per iteration, in time-units
(`setTimeout(res, 2000)` = 2 seconds). -/
def pollIntervalSeconds : Nat := 2

/-- Loop guard `status === "in_progress" || status === "queued" || status === "requires_action"`. -/
def isPolling (status : String) : Bool :=
  status == "in_progress" || status == "queued" || status == "requires_action"

/-- The three remote terminal statuses; the post-loop timeout check is
`status !== "completed" && status !== "failed" && status !== "cancelled"`. -/
def isTerminal (status : String) : Bool :=
  status == "completed" || status == "failed" || status == "cancelled"

/-- Oracles for the remote assistant service as observed by one request:
the id a session-creation call would return, the status and pending tool
calls delivered by the k-th status fetch, whether the cancel call succeeds,
and the newest assistant message (the whole optional chain
`assistantMsg?.content?.[0]?.text?.value`, `none` when any link is absent). -/
structure RemoteEnv where
  newThreadId : String
  fetchStatus : Nat → String
  fetchToolCalls : Nat → List ToolCall
  cancelOk : Bool
  assistantMessage : Option String

/-- Observable trace of one run of the polling loop. -/
structure LoopTrace where
  finalStatus : String
  iterations : Nat
  sleepUnits : Nat
  submissions : List (List ToolOutput)

/-- One run of the `while` loop, structured on remaining fuel so that the
guard `retries < maxRetries` is the fuel being positive; `retries` is the
iteration counter used to index the status-fetch oracle.  Each iteration
sleeps the fixed interval, fetches the status, and on `requires_action` with
a non-empty tool-call list dispatches them, records the single
`submit_tool_outputs` batch, and overwrites the status with `"in_progress"`. -/
def runLoopFuel (fetchStatus : Nat → String)
    (fetchToolCalls : Nat → List ToolCall) (denv : DispatchEnv) :
    Nat → String → Nat → LoopTrace
  | 0, status, _ =>
    { finalStatus := status, iterations := 0, sleepUnits := 0, submissions := [] }
  | fuel + 1, status, retries =>
    if isPolling status then
      let s1 := fetchStatus retries
      let tcs := fetchToolCalls retries
      let hasWork := s1 == "requires_action" && !tcs.isEmpty
      let s2 := if hasWork then "in_progress" else s1
      let subs := if hasWork then [dispatchAll denv tcs] else []
      let rest := runLoopFuel fetchStatus fetchToolCalls denv fuel s2 (retries + 1)
      { finalStatus := rest.finalStatus
        iterations := rest.iterations + 1
        sleepUnits := rest.sleepUnits + pollIntervalSeconds
        submissions := subs ++ rest.submissions }
    else
      { finalStatus := status, iterations := 0, sleepUnits := 0, submissions := [] }

/-- The polling loop as entered by the handler: initial status
`"in_progress"`, `retries = 0`, budget `maxRetries`. -/
def runLoop (renv : RemoteEnv) (denv : DispatchEnv) : LoopTrace :=
  runLoopFuel renv.fetchStatus renv.fetchToolCalls denv maxRetries "in_progress" 0

/-- Strips every left-to-right, non-overlapping occurrence of the citation
marker pattern, one pass, exactly like
`value.replace(/【\d+:\d+†[^】]+】/g, "")`: at each position, if the pattern
matches, the matched characters are dropped and scanning resumes after the
match; otherwise the character is kept.  Fuel-structured (fuel starts at the
list length, which suffices since a match consumes at least one character). -/
def takeDigits : List Char → List Char × List Char
  | [] => ([], [])
  | c :: cs =>
    if c.isDigit then
      let p := takeDigits cs
      (c :: p.1, p.2)
    else ([], c :: cs)

/-- Scans for the closing `】` of the marker body (`[^】]+】` after its first
character); returns the suffix after the closing bracket. -/
def afterClose : List Char → Option (List Char)
  | [] => none
  | c :: cs => if c = '】' then some cs else afterClose cs

/-- Matches `[^】]+】`: at least one non-`】` character, then everything up to
and including the first `】`. -/
def matchBody : List Char → Option (List Char)
  | [] => none
  | c :: cs => if c = '】' then none else afterClose cs

/-- Matches `\d+:\d+†[^】]+】` (the marker after its opening bracket);
returns the suffix after the whole match. -/
def matchAfterOpen (l : List Char) : Option (List Char) :=
  match takeDigits l with
  | ([], _) => none
  | (_ :: _, ':' :: r2) =>
    match takeDigits r2 with
    | ([], _) => none
    | (_ :: _, '†' :: r4) => matchBody r4
    | _ => none
  | _ => none

/-- Matches the full citation-marker pattern `【\d+:\d+†[^】]+】` at the head
of the list; returns the suffix after the match. -/
def matchMarker : List Char → Option (List Char)
  | [] => none
  | c :: cs => if c = '【' then matchAfterOpen cs else none

/-- One left-to-right stripping pass (see `stripMarkers`). -/
def stripMarkersAux : Nat → List Char → List Char
  | _, [] => []
  | 0, l => l
  | fuel + 1, c :: cs =>
    match matchMarker (c :: cs) with
    | some rest => stripMarkersAux fuel rest
    | none => c :: stripMarkersAux fuel cs

/-- The citation-stripping step `value.replace(/【\d+:\d+†[^】]+】/g, "")`. -/
def stripMarkers (s : String) : String :=
  ⟨stripMarkersAux s.data.length s.data⟩

/-- Whether the citation-marker pattern matches anywhere in the list. -/
def containsMarker : List Char → Bool
  | [] => false
  | c :: cs => (matchMarker (c :: cs)).isSome || containsMarker cs

/-- Reply extraction on the completed path:
`assistantMsg?.content?.[0]?.text?.value?.replace(...) || "No valid response."`.
The fallback fires when no assistant message value exists or when the
stripped string is empty (an empty string is falsy). -/
def extractReply (raw : Option String) : String :=
  match raw with
  | none => "No valid response."
  | some v =>
    let r := stripMarkers v
    if r == "" then "No valid response." else r

/-- Environment configuration of the chat endpoint. -/
structure Config where
  apiKey : Option String
  assistantId : Option String
  organization : Option String

/-- Body of an HTTP response from the chat endpoint: the success shape
`{ reply, threadId }`, the timeout shape `{ error, threadId }`, or the bare
error shape `{ error }` (missing credentials and the transport catch). -/
inductive RespBody where
  | reply (text : String) (threadId : String) : RespBody
  | errorWithThread (message : String) (threadId : String) : RespBody
  | errorOnly (message : String) : RespBody
deriving DecidableEq, Repr

/-- The thread id carried in a response body, when one is. -/
def bodyThreadId : RespBody → Option String
  | .reply _ t => some t
  | .errorWithThread _ t => some t
  | .errorOnly _ => none

/-- An HTTP response: body, status code, and the `Cache-Control` header if
the handler set one (`none` when no header is set). -/
structure HttpResponse where
  body : RespBody
  status : Nat
  cacheControl : Option String
deriving DecidableEq, Repr

/-- Cache header on the completed path. -/
def cacheableHeader : String := "s-maxage=120, stale-while-revalidate=300"

/-- Cache header on every non-cacheable path that sets one. -/
def noCacheHeader : String := "no-cache"

/-- Timeout error message of the 504 response. -/
def timeoutMessage : String :=
  "Request timeout. The assistant is taking longer than expected. Please try again."

/-- Observable trace of one invocation of the chat endpoint: the response,
whether the session-creation call was made, and how many remote cancel calls
were attempted. -/
structure PostTrace where
  response : HttpResponse
  threadCreated : Bool
  cancelCalls : Nat

/-- The chat endpoint `POST /api/chat`, on runs where no remote call throws
(the transport catch is `transportErrorResponse` below; the cancel call has
its own try/catch, modelled by `cancelOk` being unused in the result):
credential check, session reuse or creation, the polling loop, the timeout
path with its single best-effort cancel, and the terminal-status reply with
the cache-control policy. -/
def chatPost (cfg : Config) (renv : RemoteEnv) (denv : DispatchEnv)
    (threadId : Option String) : PostTrace :=
  if !(envTruthy cfg.apiKey) || !(envTruthy cfg.assistantId) then
    { response := { body := .errorOnly "Missing OpenAI credentials"
                    status := 500, cacheControl := none }
      threadCreated := false, cancelCalls := 0 }
  else
    let useExisting := envTruthy threadId
    let currentThreadId := if useExisting then threadId.getD "" else renv.newThreadId
    let tr := runLoop renv denv
    if !(isTerminal tr.finalStatus) then
      { response := { body := .errorWithThread timeoutMessage currentThreadId
                      status := 504, cacheControl := some noCacheHeader }
        threadCreated := !useExisting, cancelCalls := 1 }
    else
      let reply :=
        if tr.finalStatus == "completed" then extractReply renv.assistantMessage
        else if tr.finalStatus == "failed" then
          "The assistant encountered an error. Please try again."
        else if tr.finalStatus == "cancelled" then
          "Request was cancelled. Please try again."
        else
          "Unexpected error occurred. Please try again."
      { response := { body := .reply reply currentThreadId
                      status := 200
                      cacheControl := if tr.finalStatus == "completed" then
                          some cacheableHeader
                        else some noCacheHeader }
        threadCreated := !useExisting, cancelCalls := 0 }

/-- The endpoint's catch block for a thrown transport/API error:
`error.response?.data?.error?.message || error.message || "Unknown error"`,
HTTP 500, `Cache-Control: no-cache`. -/
def transportErrorResponse (remoteMessage localMessage : Option String) : HttpResponse :=
  { body := .errorOnly (remoteMessage.getD (localMessage.getD "Unknown error"))
    status := 500, cacheControl := some noCacheHeader }

/-- Request body of the search adapter `POST /api/search` before the
destructuring defaults `max_results = 3`, `include_domains = []`. -/
structure SearchBody where
  query : Option String
  max_results : Option Nat
  include_domains : Option (List String)
deriving DecidableEq, Repr

/-- The outbound request the adapter builds for the search provider
(`tavilyRequest` in the source).  `include_domains = none` means the field is
absent from the outbound JSON. -/
structure TavilyRequest where
  api_key : String
  query : String
  max_results : Nat
  include_answer : Bool
  include_raw_content : Bool
  include_domains : Option (List String)
deriving DecidableEq, Repr

/-- Provider payload as received, before the adapter's defaulting
(`data.results || []`, `data.answer || null`). -/
structure TavilyData where
  results : Option (List Json)
  answer : Option String

/-- Builds the outbound provider request: the answer-synthesis flag is always
set, raw content is never requested, and the domain allow-list field is added
only when the list is non-empty
(`if (include_domains && include_domains.length > 0)`). -/
def buildTavilyRequest (key query : String) (maxResults : Nat)
    (includeDomains : List String) : TavilyRequest :=
  { api_key := key, query := query, max_results := maxResults
    include_answer := true, include_raw_content := false
    include_domains := if includeDomains.length > 0 then some includeDomains else none }

/-- Cache header on the adapter's success path. -/
def searchCacheHeader : String := "s-maxage=600, stale-while-revalidate=1200"

/-- Observable trace of one invocation of the search adapter: the outbound
provider request (when one was issued), the HTTP status, the `Cache-Control`
header if set, and the response body. -/
structure SearchAdapterTrace where
  outbound : Option TavilyRequest
  httpStatus : Nat
  cacheControl : Option String
  body : Json

/-- The search adapter `POST /api/search`: query validation (`if (!query)` —
absent or empty is falsy), the provider-credential check, the outbound
request, and the response normalization with its cache policy.  The provider
call is an oracle; `Except.error` models a thrown error or a non-ok provider
response (converted to a throw in the source and caught by the adapter's
catch block, which sets `no-cache`). -/
def searchPost (tavilyKey : Option String) (body : SearchBody)
    (provider : TavilyRequest → Except String TavilyData) : SearchAdapterTrace :=
  if !(envTruthy body.query) then
    { outbound := none, httpStatus := 400, cacheControl := none
      body := .obj [("error", .str "Query required")] }
  else if !(envTruthy tavilyKey) then
    { outbound := none, httpStatus := 500, cacheControl := none
      body := .obj [("error", .str "Tavily API key missing")] }
  else
    let req := buildTavilyRequest (tavilyKey.getD "") (body.query.getD "")
      (body.max_results.getD 3) (body.include_domains.getD [])
    match provider req with
    | .error msg =>
      { outbound := some req, httpStatus := 500, cacheControl := some noCacheHeader
        body := .obj [("error", .str msg)] }
    | .ok data =>
      { outbound := some req, httpStatus := 200, cacheControl := some searchCacheHeader
        body := .obj [("results", .arr (data.results.getD [])),
                      ("answer", match data.answer with
                        | some a => if a == "" then Json.null else Json.str a
                        | none => Json.null)] }

/-- Sufficient condition on raw assistant content under which one stripping
pass leaves no marker: at every suffix that starts with the opening bracket
`【`, the full marker pattern matches.  Removal then never has to keep an
opening bracket, so no residual marker can be spliced together. -/
def goodSource (l : List Char) : Bool :=
  l.tails.all fun t =>
    match t with
    | c :: cs => !(c == '【') || (matchMarker (c :: cs)).isSome
    | [] => true

/-- Concrete configuration with both credentials present, used by witnesses. -/
def cfgOk : Config :=
  { apiKey := some "sk-key", assistantId := some "asst-1", organization := none }

/-- Concrete dispatch oracles where both decoding and the search fetch fail. -/
def denvDown : DispatchEnv :=
  { decodeArgs := fun _ => Except.error "bad json"
    searchFetch := fun _ => Except.error "Search failed: 500" }

/-- Concrete remote oracle whose run enters the non-terminal status
`"expired"`, so the loop exits without a terminal status. -/
def renvStuck : RemoteEnv :=
  { newThreadId := "thread_new", fetchStatus := fun _ => "expired"
    fetchToolCalls := fun _ => [], cancelOk := false, assistantMessage := none }

/-- Concrete remote oracle whose run completes at once. -/
def renvDone : RemoteEnv :=
  { newThreadId := "thread_new", fetchStatus := fun _ => "completed"
    fetchToolCalls := fun _ => [], cancelOk := true
    assistantMessage := some "All good." }

/-- A `web_search` tool call whose raw arguments do not decode. -/
def sampleBadCall : ToolCall :=
  { id := "call_1", name := "web_search", arguments := "notjson" }

/-- A tool call whose name has no registered handler. -/
def sampleUnknownCall : ToolCall :=
  { id := "call_2", name := "lookup", arguments := "x" }

/-- Two pending tool calls with distinct ids: one `web_search` call with
undecodable arguments, one unknown tool name. -/
def sampleToolCalls : List ToolCall :=
  [sampleBadCall, sampleUnknownCall]

/-- Concrete remote oracle that pauses once for `sampleToolCalls` and then
completes. -/
def renvTools : RemoteEnv :=
  { newThreadId := "thread_new"
    fetchStatus := fun k => if k == 0 then "requires_action" else "completed"
    fetchToolCalls := fun k => if k == 0 then sampleToolCalls else []
    cancelOk := true, assistantMessage := some "Done." }

/-- Raw assistant content with a citation marker nested inside the fragments
of an outer bracket pair. -/
def rawNested : String := "【1【2:3†x】:4†y】"

/-- The residual string left after one stripping pass over `rawNested`; it is
itself a complete citation marker. -/
def rawResidual : String := "【1:4†y】"

/-- Concrete remote oracle whose completed run's raw assistant content is
`rawNested`. -/
def renvMarker : RemoteEnv :=
  { renvDone with assistantMessage := some rawNested }

/-- Raw assistant content whose only opening bracket starts a complete
marker. -/
def rawPlain : String := "see 【1:2†src】 end"

/-- Concrete provider oracle that fails. -/
def providerDown : TavilyRequest → Except String TavilyData :=
  fun _ => Except.error "Tavily API error: 500"

/-- Concrete search-adapter request body with a non-empty domain list. -/
def sampleBody : SearchBody :=
  { query := some "grenada ai survey", max_results := none
    include_domains := some ["ey.com"] }

/-- Concrete decoded `web_search` arguments with both optional fields absent. -/
def sampleArgs : SearchArgs :=
  { query := "AI adoption Jamaica", max_results := none, include_domains := none }

theorem dispatchOne_id (env : DispatchEnv) (tc : ToolCall) :
    (dispatchOne env tc).tool_call_id = tc.id := by
  unfold dispatchOne
  split
  · split
    · rfl
    · split <;> rfl
  · rfl

theorem runLoopFuel_submissions (fetchStatus : Nat → String)
    (fetchToolCalls : Nat → List ToolCall) (denv : DispatchEnv) :
    ∀ (fuel : Nat) (status : String) (retries : Nat),
    ∀ sub ∈ (runLoopFuel fetchStatus fetchToolCalls denv fuel status retries).submissions,
    ∃ k, fetchStatus k = "requires_action" ∧
      sub = dispatchAll denv (fetchToolCalls k) := by
  intro fuel
  induction fuel with
  | zero => intro status retries sub hsub; simp [runLoopFuel] at hsub
  | succ fuel ih =>
    intro status retries sub hsub
    by_cases hp : isPolling status = true
    · simp only [runLoopFuel, hp, if_true] at hsub
      by_cases hw : (fetchStatus retries == "requires_action"
          && !(fetchToolCalls retries).isEmpty) = true
      · simp only [hw, if_true, List.mem_append, List.mem_singleton] at hsub
        rcases hsub with hsub | hsub
        · simp only [Bool.and_eq_true, beq_iff_eq] at hw
          exact ⟨retries, hw.1, hsub⟩
        · exact ih _ _ sub hsub
      · simp only [hw, if_false, List.nil_append] at hsub
        exact ih _ _ sub hsub
    · simp only [runLoopFuel, hp, if_false] at hsub
      simp at hsub

/-- C2: for every list of N pending tool calls handled in a
`requires_action` poll iteration, the dispatcher produces exactly N outputs,
one per `toolCallId` in order, with no duplicates and no omissions,
regardless of how the decode and fetch oracles behave; and every
`submit_tool_outputs` batch recorded by the polling loop is the full
dispatch result of one fetched tool-call list, submitted in a single call. -/
theorem dispatch_completeness (env : DispatchEnv) (renv : RemoteEnv)
    (tcs : List ToolCall) (hnd : (tcs.map ToolCall.id).Nodup) :
    (dispatchAll env tcs).length = tcs.length ∧
    (dispatchAll env tcs).map ToolOutput.tool_call_id = tcs.map ToolCall.id ∧
    ((dispatchAll env tcs).map ToolOutput.tool_call_id).Nodup ∧
    ∀ sub ∈ (runLoop renv env).submissions,
      ∃ k, renv.fetchStatus k = "requires_action" ∧
        sub = dispatchAll env (renv.fetchToolCalls k) := by
  have hfun : (ToolOutput.tool_call_id ∘ dispatchOne env) = ToolCall.id :=
    funext fun tc => dispatchOne_id env tc
  have hids : (dispatchAll env tcs).map ToolOutput.tool_call_id = tcs.map ToolCall.id := by
    unfold dispatchAll
    rw [List.map_map, hfun]
  exact ⟨by simp [dispatchAll], hids, hids ▸ hnd,
    runLoopFuel_submissions renv.fetchStatus renv.fetchToolCalls env
      maxRetries "in_progress" 0⟩

/-- Witness for C2 at a concrete two-element tool-call list and a concrete
run that pauses once for it. -/
theorem dispatch_completeness_witness :
    (sampleToolCalls.map ToolCall.id).Nodup ∧
    ((dispatchAll denvDown sampleToolCalls).length = sampleToolCalls.length ∧
     (dispatchAll denvDown sampleToolCalls).map ToolOutput.tool_call_id =
       sampleToolCalls.map ToolCall.id ∧
     ((dispatchAll denvDown sampleToolCalls).map ToolOutput.tool_call_id).Nodup ∧
     ∀ sub ∈ (runLoop renvTools denvDown).submissions,
       ∃ k, renvTools.fetchStatus k = "requires_action" ∧
         sub = dispatchAll denvDown (renvTools.fetchToolCalls k)) :=
  ⟨by decide, dispatch_completeness denvDown renvTools sampleToolCalls (by decide)⟩

/-- C3: a `web_search` tool call whose argument decoding or handler
invocation fails still yields a well-formed output whose payload encodes
the object with the error message and an empty results list; `dispatchOne`
is total, so the failure never escapes the dispatch step. -/
theorem handler_error_isolated (env : DispatchEnv) (tc : ToolCall) (msg : String)
    (hname : tc.name = "web_search") :
    (env.decodeArgs tc.arguments = Except.error msg →
      dispatchOne env tc = { tool_call_id := tc.id, output := errorResultsJson msg }) ∧
    (∀ args, env.decodeArgs tc.arguments = Except.ok args →
      env.searchFetch (buildSearchRequest args) = Except.error msg →
      dispatchOne env tc = { tool_call_id := tc.id, output := errorResultsJson msg }) := by
  constructor
  · intro h
    unfold dispatchOne
    rw [hname]
    simp [h]
  · intro args h1 h2
    unfold dispatchOne
    rw [hname]
    simp [h1, h2]

/-- Witness for C3 at a concrete undecodable `web_search` call. -/
theorem handler_error_isolated_witness :
    dispatchOne denvDown sampleBadCall =
      { tool_call_id := "call_1", output := errorResultsJson "bad json" } :=
  (handler_error_isolated denvDown sampleBadCall "bad json" rfl).1 rfl

/-- C8: a tool call whose name has no registered handler yields the
`Unknown function` error payload; the dispatcher does not throw. -/
theorem unknown_tool (env : DispatchEnv) (tc : ToolCall)
    (h : tc.name ≠ "web_search") :
    dispatchOne env tc = { tool_call_id := tc.id, output := unknownFunctionJson } := by
  unfold dispatchOne
  simp [h]

/-- Witness for C8 at a concrete call named `lookup`. -/
theorem unknown_tool_witness :
    dispatchOne denvDown sampleUnknownCall =
      { tool_call_id := "call_2", output := unknownFunctionJson } :=
  unknown_tool denvDown sampleUnknownCall (by decide)

/-- C10: when the decoded `web_search` arguments omit `max_results` or
`include_domains`, the dispatcher's request to the search endpoint
substitutes the defaults 3 and `["ey.com"]`; forwarded to the search
adapter, that non-empty list is included in the provider request, so a
default search is restricted to the `ey.com` domain. -/
theorem default_search_args (args : SearchArgs)
    (h1 : args.max_results = none) (h2 : args.include_domains = none) :
    buildSearchRequest args =
      { query := args.query, max_results := 3, include_domains := ["ey.com"] } ∧
    ∀ key, (buildTavilyRequest key args.query 3 ["ey.com"]).include_domains =
      some ["ey.com"] := by
  constructor
  · unfold buildSearchRequest
    rw [h1, h2]
    rfl
  · intro key
    rfl

/-- Witness for C10 at concrete arguments with both optional fields absent. -/
theorem default_search_args_witness :
    buildSearchRequest sampleArgs =
      { query := "AI adoption Jamaica", max_results := 3
        include_domains := ["ey.com"] } ∧
    ∀ key, (buildTavilyRequest key "AI adoption Jamaica" 3 ["ey.com"]).include_domains =
      some ["ey.com"] :=
  default_search_args sampleArgs rfl rfl

/-- C9: whenever the search adapter issues an outbound provider request, that
request has the answer-synthesis flag set (and raw content off), and it
carries the domain allow-list field exactly when the supplied
`include_domains` list (after the destructuring default `[]`) is non-empty. -/
theorem search_outbound_shape (tavilyKey : Option String) (body : SearchBody)
    (provider : TavilyRequest → Except String TavilyData) (req : TavilyRequest)
    (h : (searchPost tavilyKey body provider).outbound = some req) :
    req.include_answer = true ∧ req.include_raw_content = false ∧
    (req.include_domains ≠ none ↔ body.include_domains.getD [] ≠ []) := by
  have hreq : req = buildTavilyRequest (tavilyKey.getD "") (body.query.getD "")
      (body.max_results.getD 3) (body.include_domains.getD []) := by
    unfold searchPost at h
    split at h
    · simp at h
    · split at h
      · simp at h
      · dsimp only at h
        split at h <;>
        · dsimp only at h
          exact (Option.some_inj.mp h).symm
  subst hreq
  refine ⟨rfl, rfl, ?_⟩
  unfold buildTavilyRequest
  by_cases hd : body.include_domains.getD [] = []
  · simp [hd]
  · simp only [hd, iff_true]
    have hl : (body.include_domains.getD []).length > 0 :=
      List.length_pos.mpr hd
    rw [if_pos hl]
    simp
    exact hd

/-- Witness for C9 at a concrete body with a non-empty domain list and a
failing provider (the outbound request is issued either way). -/
theorem search_outbound_shape_witness :
    (buildTavilyRequest "tvly-key" "grenada ai survey" 3 ["ey.com"]).include_answer = true ∧
    (buildTavilyRequest "tvly-key" "grenada ai survey" 3 ["ey.com"]).include_raw_content = false ∧
    ((buildTavilyRequest "tvly-key" "grenada ai survey" 3 ["ey.com"]).include_domains ≠ none ↔
      sampleBody.include_domains.getD [] ≠ []) :=
  search_outbound_shape (some "tvly-key") sampleBody providerDown
    (buildTavilyRequest "tvly-key" "grenada ai survey" 3 ["ey.com"]) rfl

/-- C4: when the caller supplies a prior (non-empty) session id, the
session-creation call is never made, and every response path that carries a
session id carries the supplied one verbatim (the configuration-error and
transport-error bodies carry no session id at all). -/
theorem session_reuse (cfg : Config) (renv : RemoteEnv) (denv : DispatchEnv)
    (t : String) (h : t ≠ "") :
    (chatPost cfg renv denv (some t)).threadCreated = false ∧
    ∀ s, bodyThreadId (chatPost cfg renv denv (some t)).response.body = some s →
      s = t := by
  have ht : envTruthy (some t) = true := by
    simp [envTruthy, h]
  unfold chatPost
  split
  · exact ⟨rfl, fun s hs => by simp [bodyThreadId] at hs⟩
  · dsimp only
    rw [ht]
    split
    · refine ⟨rfl, fun s hs => ?_⟩
      simp [bodyThreadId] at hs
      exact hs.symm
    · refine ⟨rfl, fun s hs => ?_⟩
      simp [bodyThreadId] at hs
      exact hs.symm

/-- Witness for C4 at a concrete prior session id and a run that completes. -/
theorem session_reuse_witness :
    (chatPost cfgOk renvDone denvDown (some "thread_77")).threadCreated = false ∧
    ∀ s, bodyThreadId (chatPost cfgOk renvDone denvDown (some "thread_77")).response.body =
      some s → s = "thread_77" :=
  session_reuse cfgOk renvDone denvDown "thread_77" (by decide)

/-- C1: whenever the polling loop ends without reaching `completed`,
`failed` or `cancelled`, the handler attempts exactly one remote cancel
call, reports the timeout outcome — HTTP 504, the fixed timeout error
message together with the session id, `no-cache` — never a completed reply,
and the outcome is identical whether the cancel call succeeds or fails (its
failure is swallowed). -/
theorem timeout_cancel (cfg : Config) (renv : RemoteEnv) (denv : DispatchEnv)
    (tid : Option String)
    (h1 : envTruthy cfg.apiKey = true) (h2 : envTruthy cfg.assistantId = true)
    (hterm : isTerminal (runLoop renv denv).finalStatus = false) :
    (chatPost cfg renv denv tid).cancelCalls = 1 ∧
    (chatPost cfg renv denv tid).response.status = 504 ∧
    (chatPost cfg renv denv tid).response.body =
      RespBody.errorWithThread timeoutMessage
        (if envTruthy tid then tid.getD "" else renv.newThreadId) ∧
    (chatPost cfg renv denv tid).response.cacheControl = some noCacheHeader ∧
    ∀ b, chatPost cfg { renv with cancelOk := b } denv tid =
      chatPost cfg renv denv tid := by
  have hpost : chatPost cfg renv denv tid =
      { response := { body := RespBody.errorWithThread timeoutMessage
                        (if envTruthy tid then tid.getD "" else renv.newThreadId)
                      status := 504, cacheControl := some noCacheHeader }
        threadCreated := !(envTruthy tid), cancelCalls := 1 } := by
    unfold chatPost
    rw [h1, h2]
    dsimp only
    rw [hterm]
    simp
  exact ⟨by rw [hpost], by rw [hpost], by rw [hpost], by rw [hpost],
    fun b => rfl⟩

/-- Witness for C1: a run whose first status fetch returns the non-terminal,
non-polling status `expired`, so the loop exits after one iteration without
a terminal status. -/
theorem timeout_cancel_witness :
    (chatPost cfgOk renvStuck denvDown (some "thread_42")).cancelCalls = 1 ∧
    (chatPost cfgOk renvStuck denvDown (some "thread_42")).response.status = 504 ∧
    (chatPost cfgOk renvStuck denvDown (some "thread_42")).response.body =
      RespBody.errorWithThread timeoutMessage
        (if envTruthy (some "thread_42") then (some "thread_42").getD ""
         else renvStuck.newThreadId) ∧
    (chatPost cfgOk renvStuck denvDown (some "thread_42")).response.cacheControl =
      some noCacheHeader ∧
    ∀ b, chatPost cfgOk { renvStuck with cancelOk := b } denvDown (some "thread_42") =
      chatPost cfgOk renvStuck denvDown (some "thread_42") :=
  timeout_cancel cfgOk renvStuck denvDown (some "thread_42") (by decide) (by decide)
    (by decide)

theorem runLoopFuel_bound (fetchStatus : Nat → String)
    (fetchToolCalls : Nat → List ToolCall) (denv : DispatchEnv) :
    ∀ (fuel : Nat) (status : String) (retries : Nat),
    (runLoopFuel fetchStatus fetchToolCalls denv fuel status retries).iterations ≤ fuel ∧
    (runLoopFuel fetchStatus fetchToolCalls denv fuel status retries).sleepUnits =
      pollIntervalSeconds *
        (runLoopFuel fetchStatus fetchToolCalls denv fuel status retries).iterations := by
  intro fuel
  induction fuel with
  | zero => intro status retries; simp [runLoopFuel]
  | succ fuel ih =>
    intro status retries
    by_cases hp : isPolling status = true
    · simp only [runLoopFuel, hp, if_true]
      rcases ih (if fetchStatus retries == "requires_action" &&
          !(fetchToolCalls retries).isEmpty then "in_progress"
        else fetchStatus retries) (retries + 1) with ⟨hi, hs⟩
      constructor
      · exact Nat.succ_le_succ hi
      · dsimp only
        rw [hs]
        ring
    · simp [runLoopFuel, hp]

/-- C5: the polling loop always terminates, performing at most the
configured maximum of 200 iterations and sleeping exactly the fixed
interval of 2 time-units per iteration, whatever statuses the remote
service reports. -/
theorem poll_budget (renv : RemoteEnv) (denv : DispatchEnv) :
    (runLoop renv denv).iterations ≤ 200 ∧
    (runLoop renv denv).sleepUnits = 2 * (runLoop renv denv).iterations ∧
    maxRetries = 200 ∧ pollIntervalSeconds = 2 := by
  rcases runLoopFuel_bound renv.fetchStatus renv.fetchToolCalls denv
    maxRetries "in_progress" 0 with ⟨hi, hs⟩
  exact ⟨hi, hs, rfl, rfl⟩

/-- C6 counterexample: on the missing-credentials configuration-error path
the handler returns HTTP 500 without setting any Cache-Control header at
all, contrary to the claim that every non-completed path sets
`Cache-Control: no-cache`. -/
theorem cache_policy_counterexample :
    (chatPost { apiKey := none, assistantId := none, organization := none }
      renvStuck denvDown none).response.status = 500 ∧
    (chatPost { apiKey := none, assistantId := none, organization := none }
      renvStuck denvDown none).response.body =
      RespBody.errorOnly "Missing OpenAI credentials" ∧
    (chatPost { apiKey := none, assistantId := none, organization := none }
      renvStuck denvDown none).response.cacheControl = none ∧
    (chatPost { apiKey := none, assistantId := none, organization := none }
      renvStuck denvDown none).response.cacheControl ≠ some noCacheHeader :=
  ⟨rfl, rfl, rfl, by decide⟩

/-- C6 (amended): with credentials present, the completed path sets the
cacheable header `s-maxage=120, stale-while-revalidate=300` and every other
path through the handler — failed, cancelled, timeout — sets
`Cache-Control: no-cache`, as does the transport-error catch; the
missing-credentials configuration-error path, however, sets no
Cache-Control header at all. -/
theorem cache_policy (cfg : Config) (renv : RemoteEnv) (denv : DispatchEnv)
    (tid : Option String)
    (h1 : envTruthy cfg.apiKey = true) (h2 : envTruthy cfg.assistantId = true) :
    ((runLoop renv denv).finalStatus = "completed" →
      (chatPost cfg renv denv tid).response.cacheControl = some cacheableHeader) ∧
    ((runLoop renv denv).finalStatus ≠ "completed" →
      (chatPost cfg renv denv tid).response.cacheControl = some noCacheHeader) ∧
    (∀ cfg2 : Config, envTruthy cfg2.apiKey = false →
      (chatPost cfg2 renv denv tid).response.cacheControl = none) ∧
    (∀ rm lm, (transportErrorResponse rm lm).cacheControl = some noCacheHeader) ∧
    cacheableHeader = "s-maxage=120, stale-while-revalidate=300" ∧
    noCacheHeader = "no-cache" := by
  refine ⟨?_, ?_, ?_, fun rm lm => rfl, rfl, rfl⟩
  · intro hc
    unfold chatPost
    rw [h1, h2]
    dsimp only
    have hterm : isTerminal (runLoop renv denv).finalStatus = true := by
      rw [hc]; rfl
    rw [hterm]
    have hbeq : ((runLoop renv denv).finalStatus == "completed") = true := by
      rw [hc]; rfl
    simp [hbeq]
  · intro hc
    by_cases hterm : isTerminal (runLoop renv denv).finalStatus = true
    · unfold chatPost
      rw [h1, h2]
      dsimp only
      rw [hterm]
      have hbeq : ((runLoop renv denv).finalStatus == "completed") = false := by
        simp [hc]
      simp [hbeq]
    · rw [Bool.not_eq_true] at hterm
      unfold chatPost
      rw [h1, h2]
      dsimp only
      rw [hterm]
      simp
  · intro cfg2 hbad
    unfold chatPost
    have hcond : (!(envTruthy cfg2.apiKey) || !(envTruthy cfg2.assistantId)) = true := by
      rw [hbad]; rfl
    rw [hcond]
    rfl

/-- Witness for the amended C6 at a concrete completing run with both
credentials present. -/
theorem cache_policy_witness :
    ((runLoop renvDone denvDown).finalStatus = "completed" →
      (chatPost cfgOk renvDone denvDown none).response.cacheControl =
        some cacheableHeader) ∧
    ((runLoop renvDone denvDown).finalStatus ≠ "completed" →
      (chatPost cfgOk renvDone denvDown none).response.cacheControl =
        some noCacheHeader) ∧
    (∀ cfg2 : Config, envTruthy cfg2.apiKey = false →
      (chatPost cfg2 renvDone denvDown none).response.cacheControl = none) ∧
    (∀ rm lm, (transportErrorResponse rm lm).cacheControl = some noCacheHeader) ∧
    cacheableHeader = "s-maxage=120, stale-while-revalidate=300" ∧
    noCacheHeader = "no-cache" :=
  cache_policy cfgOk renvDone denvDown none (by decide) (by decide)

theorem takeDigits_suffix (l : List Char) : (takeDigits l).2 <:+ l := by
  induction l with
  | nil => simp [takeDigits]
  | cons c cs ih =>
    unfold takeDigits
    by_cases h : c.isDigit
    · rw [if_pos h]
      exact ih.trans (List.suffix_cons c cs)
    · rw [if_neg h]

theorem afterClose_suffix : ∀ l r : List Char, afterClose l = some r → r <:+ l := by
  intro l
  induction l with
  | nil => intro r h; simp [afterClose] at h
  | cons c cs ih =>
    intro r h
    unfold afterClose at h
    by_cases hc : c = '】'
    · rw [if_pos hc] at h
      injection h with h
      rw [← h]
      exact List.suffix_cons c cs
    · rw [if_neg hc] at h
      exact (ih r h).trans (List.suffix_cons c cs)

theorem matchBody_suffix : ∀ l r : List Char, matchBody l = some r → r <:+ l := by
  intro l r h
  cases l with
  | nil => simp [matchBody] at h
  | cons c cs =>
    simp only [matchBody] at h
    by_cases hc : c = '】'
    · rw [if_pos hc] at h; exact absurd h (by simp)
    · rw [if_neg hc] at h
      exact (afterClose_suffix cs r h).trans (List.suffix_cons c cs)

theorem matchAfterOpen_suffix (l r : List Char) (h : matchAfterOpen l = some r) :
    r <:+ l := by
  unfold matchAfterOpen at h
  split at h
  · exact absurd h (by simp)
  case h_2 d ds r2 heq =>
    have h1 : (':' :: r2) <:+ l := by
      have := takeDigits_suffix l
      rw [heq] at this
      exact this
    have h2 : r2 <:+ l := (List.suffix_cons ':' r2).trans h1
    split at h
    · exact absurd h (by simp)
    case h_2 e es r4 heq2 =>
      have h3 : ('†' :: r4) <:+ r2 := by
        have := takeDigits_suffix r2
        rw [heq2] at this
        exact this
      have h4 : r4 <:+ r2 := (List.suffix_cons '†' r4).trans h3
      exact ((matchBody_suffix r4 r h).trans h4).trans h2
    · exact absurd h (by simp)
  · exact absurd h (by simp)

theorem matchMarker_tail_suffix (c : Char) (cs r : List Char)
    (h : matchMarker (c :: cs) = some r) : r <:+ cs := by
  simp only [matchMarker] at h
  by_cases hc : c = '【'
  · rw [if_pos hc] at h
    exact matchAfterOpen_suffix cs r h
  · rw [if_neg hc] at h
    exact absurd h (by simp)

theorem matchMarker_not_open (c : Char) (cs : List Char) (hc : c ≠ '【') :
    matchMarker (c :: cs) = none := by
  simp only [matchMarker]
  rw [if_neg hc]

theorem goodSource_spec (l : List Char) (h : goodSource l = true) :
    ∀ c cs, (c :: cs) <:+ l → c = '【' → (matchMarker (c :: cs)).isSome = true := by
  intro c cs hsuf hc
  subst hc
  have ht : ('【' :: cs) ∈ l.tails := by
    rw [List.mem_tails]; exact hsuf
  have h2 := List.all_eq_true.mp h _ ht
  simp only [beq_self_eq_true, Bool.not_true, Bool.false_or] at h2
  exact h2

theorem stripMarkersAux_no_open :
    ∀ (fuel : Nat) (l : List Char), l.length ≤ fuel →
    (∀ c cs, (c :: cs) <:+ l → c = '【' → (matchMarker (c :: cs)).isSome = true) →
    '【' ∉ stripMarkersAux fuel l := by
  intro fuel
  induction fuel with
  | zero =>
    intro l hl _
    have : l = [] := List.eq_nil_of_length_eq_zero (Nat.le_zero.mp hl)
    subst this
    simp [stripMarkersAux]
  | succ fuel ih =>
    intro l hl H
    cases l with
    | nil => simp [stripMarkersAux]
    | cons c cs =>
      have hcs : cs.length ≤ fuel := Nat.le_of_succ_le_succ hl
      unfold stripMarkersAux
      cases hm : matchMarker (c :: cs) with
      | some rest =>
        have hsr : rest <:+ cs := matchMarker_tail_suffix c cs rest hm
        apply ih rest (le_trans hsr.length_le hcs)
        intro d ds hsuf hd
        exact H d ds ((hsuf.trans hsr).trans (List.suffix_cons c cs)) hd
      | none =>
        have hc : c ≠ '【' := by
          intro hc
          have := H c cs (List.suffix_refl _) hc
          rw [hm] at this
          simp at this
        intro hmem
        rcases List.mem_cons.mp hmem with hmem | hmem
        · exact hc hmem.symm
        · exact ih cs hcs
            (fun d ds hsuf hd => H d ds (hsuf.trans (List.suffix_cons c cs)) hd) hmem

theorem no_open_no_marker : ∀ l : List Char, '【' ∉ l → containsMarker l = false := by
  intro l
  induction l with
  | nil => intro _; rfl
  | cons c cs ih =>
    intro h
    have hc : c ≠ '【' := fun hc => h (by rw [hc]; exact List.mem_cons_self _ _)
    unfold containsMarker
    rw [matchMarker_not_open c cs hc]
    simp only [Option.isSome_none, Bool.false_or]
    exact ih (fun hm => h (List.mem_cons_of_mem c hm))

/-- C7 counterexample: stripping is a single left-to-right pass, so removing
a marker can splice the surrounding fragments into a new marker.  For the
raw assistant content `【1【2:3†x】:4†y】` the pass removes the inner marker
`【2:3†x】` and leaves `【1:4†y】`, which itself matches the citation-marker
pattern; a completed run with that raw content returns a reply that still
contains the pattern. -/
theorem citation_strip_residual :
    containsMarker rawNested.data = true ∧
    stripMarkers rawNested = rawResidual ∧
    containsMarker rawResidual.data = true ∧
    (chatPost cfgOk renvMarker denvDown (some "thread_9")).response.body =
      RespBody.reply rawResidual "thread_9" ∧
    containsMarker (extractReply (some rawNested)).data = true := by
  refine ⟨by decide, by decide, by decide, by decide, by decide⟩

/-- C7 (amended): the completed-run reply is the raw assistant content with
the left-to-right non-overlapping citation-marker matches removed in one
pass; whenever every suffix of the raw content that begins with the opening
bracket starts a complete citation marker (`goodSource`), the reply contains
no citation marker.  In general a removed marker's surrounding fragments can
splice into a new marker that remains in the reply. -/
theorem citation_strip_complete (s : String) (h : goodSource s.data = true) :
    containsMarker (extractReply (some s)).data = false := by
  unfold extractReply
  dsimp only
  by_cases he : (stripMarkers s == "") = true
  · rw [if_pos he]
    decide
  · rw [if_neg he]
    unfold stripMarkers
    exact no_open_no_marker _
      (stripMarkersAux_no_open s.data.length s.data le_rfl (goodSource_spec s.data h))

/-- Witness for the amended C7 at concrete raw content whose single opening
bracket starts a complete marker. -/
theorem citation_strip_complete_witness :
    goodSource rawPlain.data = true ∧
    containsMarker (extractReply (some rawPlain)).data = false :=
  ⟨by decide, citation_strip_complete rawPlain (by decide)⟩
